import Mathlib

/-!
Verification development for the crawler decision core in `scraper.py`.

The Python source is shallowly embedded: each method of the `Scraper` class
becomes a pure Lean function over an explicit `ScraperState`, the standard
library helpers from `urllib.parse` that the source calls are modelled by
executable Lean functions transcribed from CPython's `urllib/parse.py`,
and genuinely external collaborators (BeautifulSoup, the network read in
`RobotFileParser`, `urljoin`, Python's seeded `hash`) are oracle parameters.
Python exceptions are modelled with `Except PyErr`.
-/

/-- Python exception kinds that the embedded code can raise. -/
inductive PyErr where
  | valueError
  | attributeError
  | typeError
deriving DecidableEq

instance {ε α : Type} [DecidableEq ε] [DecidableEq α] : DecidableEq (Except ε α) := fun x y =>
  match x, y with
  | .ok a, .ok b =>
    if h : a = b then isTrue (by rw [h]) else isFalse (by intro hh; cases hh; exact h rfl)
  | .error a, .error b =>
    if h : a = b then isTrue (by rw [h]) else isFalse (by intro hh; cases hh; exact h rfl)
  | .ok _, .error _ => isFalse (by intro hh; cases hh)
  | .error _, .ok _ => isFalse (by intro hh; cases hh)

/-! ### Character and string helpers (ASCII model of the `str` operations used) -/

def isAsciiAlpha (c : Char) : Bool :=
  ('a' ≤ c && c ≤ 'z') || ('A' ≤ c && c ≤ 'Z')

def isAsciiDigit (c : Char) : Bool :=
  '0' ≤ c && c ≤ '9'

/-- Characters permitted in a URL scheme by CPython's `urllib.parse.scheme_chars`. -/
def schemeChar (c : Char) : Bool :=
  isAsciiAlpha c || isAsciiDigit c || c == '+' || c == '-' || c == '.'

/-- Model of `str.lower` restricted to ASCII (all URLs and page text in the
claims are ASCII; CPython's full Unicode case mapping agrees on this range). -/
def pyCharLower (c : Char) : Char :=
  if 'A' ≤ c && c ≤ 'Z' then Char.ofNat (c.toNat + 32) else c

def pyLower (s : String) : String :=
  String.mk (s.data.map pyCharLower)

/-- Split a character list at the first occurrence of `c`; `none` if absent. -/
def splitFirst (cs : List Char) (c : Char) : Option (List Char × List Char) :=
  match cs with
  | [] => none
  | x :: rest =>
    if x = c then some ([], rest)
    else
      match splitFirst rest c with
      | none => none
      | some (a, b) => some (x :: a, b)

/-- Split a character list at the last occurrence of `c`; `none` if absent. -/
def splitLast (cs : List Char) (c : Char) : Option (List Char × List Char) :=
  match splitFirst cs.reverse c with
  | none => none
  | some (a, b) => some (b.reverse, a.reverse)

def startsWithL : List Char → List Char → Bool
  | [], _ => true
  | _ :: _, [] => false
  | a :: as, b :: bs => a == b && startsWithL as bs

/-- Substring containment on character lists; models Python's `pat in s`. -/
def containsSub (pat : List Char) : List Char → Bool
  | [] => startsWithL pat []
  | c :: t => startsWithL pat (c :: t) || containsSub pat t

/-- Model of Python's substring test `pat in s` on `str`. -/
def strContains (pat s : String) : Bool :=
  containsSub pat.data s.data

/-- Suffix test, used to model the `$`-anchored regular expressions of the source. -/
def strEndsWith (pat s : String) : Bool :=
  startsWithL pat.data.reverse s.data.reverse

/-- Strict lexicographic comparison by code point, the order Python uses on `str`. -/
def ltChars : List Char → List Char → Bool
  | [], [] => false
  | [], _ :: _ => true
  | _ :: _, [] => false
  | a :: as, b :: bs => if a = b then ltChars as bs else decide (a < b)

def strLtB (a b : String) : Bool :=
  ltChars a.data b.data

/-! ### Model of `urllib.parse`, transcribed from CPython `urllib/parse.py` -/

/-- Result record of `urllib.parse.urlparse` (a `ParseResult` named tuple). -/
structure ParseResult where
  scheme : String
  netloc : String
  path : String
  params : String
  query : String
  fragment : String
deriving DecidableEq

/-- Result record of `urllib.parse.urldefrag` (a `DefragResult` named tuple).
It is a tuple, not a `str` — the distinction matters for `check_robots_txt`. -/
structure DefragResult where
  url : String
  fragment : String
deriving DecidableEq

/-- CPython removes tab, carriage return and newline from the URL before parsing
(`_UNSAFE_URL_BYTES_TO_REMOVE`). -/
def removeUnsafe (cs : List Char) : List Char :=
  cs.filter (fun c => !(c == '\t' || c == '\r' || c == '\n'))

/-- Scheme extraction step of CPython `urlsplit`: a scheme is split off when a
colon appears at position `> 0`, the first character is an ASCII letter and all
characters before the colon are scheme characters; the scheme is lowercased. -/
def schemeSplit (cs : List Char) : List Char × List Char :=
  match splitFirst cs ':' with
  | none => ([], cs)
  | some (before, after) =>
    match before with
    | [] => ([], cs)
    | b0 :: _ =>
      if isAsciiAlpha b0 && before.all schemeChar then (before.map pyCharLower, after)
      else ([], cs)

/-- Netloc extraction of CPython `_splitnetloc`: everything up to the first of
`/`, `?` or `#` (the delimiter stays with the remainder). -/
def splitNetloc : List Char → List Char × List Char
  | [] => ([], [])
  | c :: t =>
    if c = '/' ∨ c = '?' ∨ c = '#' then ([], c :: t)
    else
      let (n, r) := splitNetloc t
      (c :: n, r)

/-- Params extraction of CPython `_splitparams`: split the last path segment at
its first semicolon. Callers only invoke it when the path contains one. -/
def splitParams (path : List Char) : List Char × List Char :=
  if path.contains ';' then
    if path.contains '/' then
      match splitLast path '/' with
      | some (before, afterSlash) =>
        match splitFirst afterSlash ';' with
        | none => (path, [])
        | some (a, b) => (before ++ '/' :: a, b)
      | none => (path, [])
    else
      match splitFirst path ';' with
      | none => (path, [])
      | some (a, b) => (a, b)
  else (path, [])

/-- CPython `urlsplit` on a `str` argument. Raises `ValueError` ("Invalid IPv6
URL") when the netloc contains one bracket without the other; the NFKC netloc
check and the bracketed-host validation, which require non-ASCII or a matched
bracket pair, are outside the fragment of inputs this development uses. -/
def urlsplitL (allowFragments : Bool) (cs : List Char) :
    Except PyErr (List Char × List Char × List Char × List Char × List Char) :=
  let cs1 := removeUnsafe cs
  let sr := schemeSplit cs1
  let nr :=
    if sr.2.take 2 = ['/', '/'] then splitNetloc (sr.2.drop 2) else ([], sr.2)
  if (nr.1.contains '[' && !(nr.1.contains ']')) ||
     (nr.1.contains ']' && !(nr.1.contains '[')) then
    .error .valueError
  else
    let fr :=
      if allowFragments && nr.2.contains '#' then
        match splitFirst nr.2 '#' with
        | some (a, b) => (a, b)
        | none => (nr.2, [])
      else (nr.2, [])
    let qr :=
      if fr.1.contains '?' then
        match splitFirst fr.1 '?' with
        | some (a, b) => (a, b)
        | none => (fr.1, [])
      else (fr.1, [])
    .ok (sr.1, nr.1, qr.1, qr.2, fr.2)

/-- CPython `urlparse` on a `str` argument: `urlsplit` followed by `_splitparams`. -/
def urlparseE (allowFragments : Bool) (url : String) : Except PyErr ParseResult :=
  match urlsplitL allowFragments url.data with
  | .error e => .error e
  | .ok (scheme, netloc, path0, query, fragment) =>
    let pp := if path0.contains ';' then splitParams path0 else (path0, [])
    .ok ⟨String.mk scheme, String.mk netloc, String.mk pp.1,
         String.mk pp.2, String.mk query, String.mk fragment⟩

/-- CPython `urlunsplit`. -/
def urlunsplitL (scheme netloc url query fragment : List Char) : List Char :=
  let url1 :=
    if netloc ≠ [] ∨ (url ≠ [] ∧ url.take 2 = ['/', '/']) then
      let u := if url ≠ [] ∧ url.take 1 ≠ ['/'] then '/' :: url else url
      '/' :: '/' :: (netloc ++ u)
    else url
  let url2 := if scheme ≠ [] then scheme ++ ':' :: url1 else url1
  let url3 := if query ≠ [] then url2 ++ '?' :: query else url2
  if fragment ≠ [] then url3 ++ '#' :: fragment else url3

/-- CPython `urlunparse`. -/
def urlunparse (scheme netloc url params query fragment : String) : String :=
  let u := if params.data ≠ [] then url.data ++ ';' :: params.data else url.data
  String.mk (urlunsplitL scheme.data netloc.data u query.data fragment.data)

/-- CPython `urldefrag`: when a `#` is present the URL is parsed and re-assembled
without its fragment (so a parse failure propagates), otherwise it is returned
unchanged. The result is a `DefragResult` named tuple. -/
def urldefragE (url : String) : Except PyErr DefragResult :=
  if url.data.contains '#' then
    match urlparseE true url with
    | .error e => .error e
    | .ok p =>
      .ok ⟨urlunparse p.scheme p.netloc p.path p.params p.query "", p.fragment⟩
  else .ok ⟨url, ""⟩

/-- Dynamically-typed argument to `urlparse` as it occurs in the source: either
a `str` or a `DefragResult` named tuple. -/
inductive PyUrlArg where
  | ofStr (s : String)
  | ofDefrag (d : DefragResult)

/-- CPython `urlparse` as invoked on a dynamically typed argument. A non-`str`
argument is pushed through `_coerce_args`/`_decode_args`, which call `.decode`
on it; a `DefragResult` named tuple has no `decode` attribute, so the call
raises `AttributeError` before any parsing happens. -/
def urlparseDyn (arg : PyUrlArg) (allowFragments : Bool) : Except PyErr ParseResult :=
  match arg with
  | .ofStr s => urlparseE allowFragments s
  | .ofDefrag _ => .error .attributeError

/-! ### The module-level validator `is_valid` -/

/-- The fixed domain suffixes admitted by the regular expression
`.*\.(ics|cs|informatics|stat)\.uci\.edu$` in `is_valid`. -/
def domain_suffixes : List String :=
  [".ics.uci.edu", ".cs.uci.edu", ".informatics.uci.edu", ".stat.uci.edu"]

def domainOk (netloc : String) : Bool :=
  domain_suffixes.any (fun suf => strEndsWith suf netloc)

/-- The alternatives of the blocked-extension regular expression in `is_valid`,
with `jpe?g` and `tiff?` expanded; the regex is `$`-anchored on the lowercased
path, i.e. a suffix test on `"." ++ ext`. -/
def bad_extensions : List String :=
  ["css", "js", "bmp", "gif", "jpeg", "jpg", "ico", "png", "tif", "tiff", "mid",
   "mp2", "mp3", "mp4", "wav", "avi", "mov", "mpeg", "ram", "m4v", "mkv", "ogg",
   "ogv", "pdf", "ps", "eps", "tex", "ppt", "pptx", "doc", "docx", "xls", "xlsx",
   "names", "data", "dat", "exe", "bz2", "tar", "msi", "bin", "7z", "psd", "dmg",
   "iso", "epub", "dll", "cnf", "tgz", "sha1", "thmx", "mso", "arff", "rtf",
   "jar", "csv", "rm", "smil", "wmv", "swf", "wma", "zip", "rar", "gz", "java",
   "war", "mpg", "ppsx"]

def extensionBad (path : String) : Bool :=
  bad_extensions.any (fun ext => strEndsWith ("." ++ ext) path)

/-- Embedding of the module-level `is_valid`. The regex `.*\/pdf.*` on the path
is a substring test for `/pdf`; `"diff" in parsed.query` is Python substring
containment. `urlparse` errors propagate: the only handler is
`except TypeError: print(...); raise`, which re-raises, so no exception is
converted to a return value. -/
def is_valid (url : String) : Except PyErr Bool :=
  match urlparseE true url with
  | .error e => .error e
  | .ok prs =>
    if ¬(prs.scheme = "http" ∨ prs.scheme = "https") then .ok false
    else if ¬(domainOk prs.netloc = true) then .ok false
    else if strContains "/pdf" prs.path then .ok false
    else if strContains "diff" prs.query && strContains "rev" prs.query then .ok false
    else .ok (!extensionBad (pyLower prs.path))

/-- The five rules of `is_valid` as one conjunction, for the rule-failure
characterization. -/
def is_valid_rules (prs : ParseResult) : Bool :=
  (prs.scheme == "http" || prs.scheme == "https") &&
  domainOk prs.netloc &&
  !strContains "/pdf" prs.path &&
  !(strContains "diff" prs.query && strContains "rev" prs.query) &&
  !extensionBad (pyLower prs.path)

/-- Sanity facts fixing the behaviour of the `urllib.parse` model and of
`is_valid` on representative inputs (each agrees with CPython). -/
theorem urllib_model_sanity :
    urlparseE true "http://www.ics.uci.edu/page?x=1" =
      .ok ⟨"http", "www.ics.uci.edu", "/page", "", "x=1", ""⟩ ∧
    urlparseE true "http://[" = .error .valueError ∧
    urlparseE true "http://h/a;p?q#f" = .ok ⟨"http", "h", "/a", "p", "q", "f"⟩ ∧
    urldefragE "http://h/a#frag" = .ok ⟨"http://h/a", "frag"⟩ := by decide

theorem is_valid_sanity :
    is_valid "http://www.ics.uci.edu/page" = .ok true ∧
    is_valid "https://x.stat.uci.edu/a.pdf" = .ok false ∧
    is_valid "http://www.ics.uci.edu/x?diff=1&rev=2" = .ok false ∧
    is_valid "ftp://www.ics.uci.edu/" = .ok false := by decide

/-! ### Crawl session state and external-input records -/

/-- The class-level mutable attributes of `Scraper`, as one record. Python sets
become `Finset String`; the `dict`/`defaultdict` attributes become
insertion-ordered association lists, matching Python dict iteration order. -/
structure ScraperState where
  visited_pages : Finset String
  num_redirect : Nat
  pages_in_front : Finset String
  longest_page : String × Int
  word_count : List (String × Nat)
  ics_subdomains : List (String × Nat)
  all_fingerprints : List (Finset Int)
  robot_allowed : List (String × Bool)
deriving DecidableEq

/-- The initial values of the class attributes. -/
def initState : ScraperState :=
  ⟨∅, 0, ∅, ("", -1), [], [], [], []⟩

/-- The `resp.raw_response` record (only `content` is read by the source). -/
structure RawResponse where
  content : String
deriving DecidableEq

/-- The response record handed to `extract_next_links`. The `Response` object
itself is a plain Python object and therefore always truthy, so the source's
`not resp` disjunct is constantly false and is not modelled as a separate case;
`not resp.raw_response` is modelled by `Option`. -/
structure Response where
  url : String
  status : Nat
  raw_response : Option RawResponse
deriving DecidableEq

/-- What the source reads out of a `BeautifulSoup` parse of the page content:
`soup.get_text()` and `link.get("href")` for each `soup.find_all("a")` anchor
(`get` returns `None` when the attribute is missing). -/
structure SoupData where
  text : String
  anchors : List (Option String)

/-- Python `d[k] += 1` on a `defaultdict(int)`: update in place, insert at the
end when the key is new. -/
def dictIncr (d : List (String × Nat)) (k : String) : List (String × Nat) :=
  match d with
  | [] => [(k, 1)]
  | (k1, v) :: rest => if k1 = k then (k1, v + 1) :: rest else (k1, v) :: dictIncr rest k

/-- Python `d[k] = v` on a `dict`: update in place, insert at the end when new. -/
def dictSet (d : List (String × Bool)) (k : String) (v : Bool) : List (String × Bool) :=
  match d with
  | [] => [(k, v)]
  | (k1, v1) :: rest => if k1 = k then (k1, v) :: rest else (k1, v1) :: dictSet rest k v

/-- Lookup (`k in d` plus `d[k]`) on an association list. -/
def dictGet? (d : List (String × Bool)) (k : String) : Option Bool :=
  match d with
  | [] => none
  | (k1, v) :: rest => if k1 = k then some v else dictGet? rest k

/-! ### Class constants of `Scraper` -/

def PAGE_MIN_SIZE : Nat := 250

def PAGE_MAX_SIZE : Nat := 10000

/-- The source's threshold is the float literal `0.9`; it is modelled as the
rational 9/10. For the set cardinalities that can occur here the float
comparison `len(i)/len(u) >= 0.9` agrees with the exact rational comparison:
they could only differ for ratios within one ulp of 0.9, which needs
denominators above 10^15. -/
def PAGE_SIMILARITY_THRESHOLD : ℚ := 9 / 10

def TRAP_FINGERPRINT_CHECK : Nat := 25

/-- The stopword set of the source, minus its entries containing an apostrophe
(such as `aren't`): tokens are maximal `[a-z0-9]+` runs and can never contain
an apostrophe, so those entries are unreachable in `word not in STOPWORDS`. -/
def ENGLISH_STOPWORDS : List String :=
  ["a", "about", "above", "after", "again", "against", "all", "am", "an",
   "and", "any", "are", "as", "at", "be", "because", "been", "before", "being",
   "below", "between", "both", "but", "by", "cannot", "could", "did", "do",
   "does", "doing", "down", "during", "each", "few", "for", "from", "further",
   "had", "has", "have", "having", "he", "her", "here", "hers", "herself",
   "him", "himself", "his", "how", "i", "if", "in", "into", "is", "it", "its",
   "itself", "me", "more", "most", "my", "myself", "no", "nor", "not", "of",
   "off", "on", "once", "only", "or", "other", "ought", "our", "ours",
   "ourselves", "out", "over", "own", "same", "she", "should", "so", "some",
   "such", "than", "that", "the", "their", "theirs", "them", "themselves",
   "then", "there", "these", "they", "this", "those", "through", "to", "too",
   "under", "until", "up", "very", "was", "we", "were", "what", "when",
   "where", "which", "while", "who", "whom", "why", "with", "would", "you",
   "your", "yours", "yourself", "yourselves"]

/-! ### Tokenization: `re.findall("[a-z0-9]+", text)` -/

def isTokenChar (c : Char) : Bool :=
  ('a' ≤ c && c ≤ 'z') || ('0' ≤ c && c ≤ '9')

/-- Accumulator-based scan producing the maximal `[a-z0-9]+` runs; `cur` holds
the current run reversed. -/
def tokenizeChars : List Char → List Char → List String
  | [], cur => if cur.isEmpty then [] else [String.mk cur.reverse]
  | c :: rest, cur =>
    if isTokenChar c then tokenizeChars rest (c :: cur)
    else if cur.isEmpty then tokenizeChars rest []
    else String.mk cur.reverse :: tokenizeChars rest []

/-- Model of `re.findall("[a-z0-9]+", s)`. -/
def tokenize (s : String) : List String :=
  tokenizeChars s.data []

/-! ### Fingerprinting and trap detection -/

/-- The generator `(words[i:i+3] for i in range(len(words)-2))`. Python's
`range` of a non-positive number is empty, matching truncated `Nat`
subtraction. -/
def threeGramsList (ws : List String) : List (List String) :=
  (List.range (ws.length - 2)).map (fun i => (ws.drop i).take 3)

/-- Embedding of `Scraper.create_fingerprint`. Python's `hash` on a tuple of
strings is salted per process (`PYTHONHASHSEED`), so it is an oracle parameter
`h`; `% 4` on a Python int agrees with `Int.emod` for a positive modulus. -/
def create_fingerprint (h : List String → Int) (ws : List String) : Finset Int :=
  (((threeGramsList ws).map h).filter (fun gram_hash => gram_hash % 4 == 0)).toFinset

/-- Embedding of `Scraper.fingerprints_are_similar`: Jaccard ratio when the
union is nonempty, else `int(len(inter) == len(union))`, compared with the
threshold. -/
def fingerprints_are_similar (f1 f2 : Finset Int) : Bool :=
  let inter := f1 ∩ f2
  let un := f1 ∪ f2
  let similarity : ℚ :=
    if un.card ≠ 0 then (inter.card : ℚ) / (un.card : ℚ)
    else if inter.card = un.card then 1 else 0
  decide (similarity ≥ PAGE_SIMILARITY_THRESHOLD)

/-- Embedding of `Scraper.check_for_recent_trap`. The Python loop
`range(len-2, len-2-25, -1)` visits exactly the indices `len-2-j` for
`j = 0, ..., 24`; `any` gives the same boolean as the short-circuit loop. -/
def check_for_recent_trap (fps : List (Finset Int)) (fp : Finset Int) : Bool :=
  if fps.length ≤ TRAP_FINGERPRINT_CHECK then false
  else
    (List.range TRAP_FINGERPRINT_CHECK).any
      (fun j => fingerprints_are_similar fp (fps.getD (fps.length - 2 - j) ∅))

/-- Embedding of `Scraper.page_is_valid_size`. -/
def page_is_valid_size (words : List String) : Bool :=
  PAGE_MIN_SIZE ≤ words.length && words.length ≤ PAGE_MAX_SIZE

/-! ### Counter updates -/

/-- The word-count loop of `update_longest_page_and_word_count`. -/
def update_word_count (wc : List (String × Nat)) (words : List String) : List (String × Nat) :=
  words.foldl (fun acc w => if ENGLISH_STOPWORDS.contains w then acc else dictIncr acc w) wc

/-- Embedding of `Scraper.update_longest_page_and_word_count`: longest page
first (raw token count vs the stored `Int`, initially -1), then the stopword-
filtered word counts. -/
def update_longest_page_and_word_count (st : ScraperState) (words : List String)
    (url : String) : ScraperState :=
  let st1 :=
    if (words.length : Int) > st.longest_page.2 then
      { st with longest_page := (url, (words.length : Int)) }
    else st
  { st1 with word_count := update_word_count st1.word_count words }

/-! ### The politeness check `check_robots_txt` -/

/-- The body of the `try` block of `check_robots_txt`. Line 185 of the source
binds `defrag_url = urldefrag(url.lower())` with no `.url` projection, so the
following `urlparse(defrag_url, allow_fragments=False)` receives the
`DefragResult` named tuple itself and raises `AttributeError`. Everything after
that point is dead code; the network read `rfp.read()` plus
`rfp.can_fetch(user_agent, defrag_url)` is modelled by the oracle `fetch`. -/
def robotsTryBody (fetch : String → String → Bool) (cache : List (String × Bool))
    (url : String) : Except PyErr (Bool × List (String × Bool)) :=
  match urldefragE (pyLower url) with
  | .error e => .error e
  | .ok dfr =>
    match urlparseDyn (PyUrlArg.ofDefrag dfr) false with
    | .error e => .error e
    | .ok prs =>
      let robot_url := urlunparse prs.scheme prs.netloc "/robots.txt" "" "" ""
      if dictGet? cache robot_url = some false then .ok (false, cache)
      else
        let robot_can_read := fetch robot_url dfr.url
        let cache2 := dictSet cache robot_url robot_can_read
        if !robot_can_read then .ok (false, cache2)
        else .ok (true, cache2)

/-- Embedding of `Scraper.check_robots_txt`: the `except Exception: pass`
handler swallows every raised exception and control falls through to the final
`return True` (the bare `except: return False` can only catch exceptions that
are not `Exception` subclasses and is unreachable here). -/
def check_robots_txt (fetch : String → String → Bool) (cache : List (String × Bool))
    (url : String) : Bool × List (String × Bool) :=
  match robotsTryBody fetch cache url with
  | .ok r => r
  | .error _ => (true, cache)

/-! ### The per-page pipeline `extract_next_links` / `scraper` -/

/-- The identity key built at lines 63, 103 and 114 of the source:
`parsed.netloc + urlunparse(("", "", parsed.path, parsed.params, parsed.query, ""))`. -/
def pageKey (prs : ParseResult) : String :=
  prs.netloc ++ urlunparse "" "" prs.path prs.params prs.query ""

/-- The subdomain test of line 76: `re.match(r".*\.ics\.uci\.edu", netloc)` is
anchored only at the start, so it is a substring test, plus the exact-host
alternative. -/
def icsHostMatch (netloc : String) : Bool :=
  containsSub ".ics.uci.edu".data netloc.data || netloc == "ics.uci.edu"

/-- One iteration of the link-extraction loop (lines 99-108). `uj` is the
`urllib.parse.urljoin` oracle; it receives the lowercased response URL and the
raw `href` attribute (possibly `None`). Parse failures on the joined URL
propagate out of the loop, as the uncaught exceptions would in Python. -/
def admitLink (uj : String → Option String → String) (fetch : String → String → Bool)
    (base : String) (acc : List String × ScraperState) (href : Option String) :
    Except PyErr (List String × ScraperState) :=
  match urldefragE (pyLower (uj base href)) with
  | .error e => .error e
  | .ok d =>
    match urlparseE false d.url with
    | .error e => .error e
    | .ok np =>
      let nk := pageKey np
      if d.url = "" then .ok acc
      else
        match is_valid d.url with
        | .error e => .error e
        | .ok v =>
          if !v then .ok acc
          else
            let rc := check_robots_txt fetch acc.2.robot_allowed d.url
            let st := { acc.2 with robot_allowed := rc.2 }
            if !rc.1 then .ok (acc.1, st)
            else if nk ∈ st.visited_pages then .ok (acc.1, st)
            else if nk ∈ st.pages_in_front then .ok (acc.1, st)
            else .ok (acc.1 ++ [d.url], { st with pages_in_front := insert nk st.pages_in_front })

/-- The `for link in soup.find_all("a")` loop. -/
def linkLoop (uj : String → Option String → String) (fetch : String → String → Bool)
    (base : String) : List (Option String) → (List String × ScraperState) →
    Except PyErr (List String × ScraperState)
  | [], acc => .ok acc
  | a :: rest, acc =>
    match admitLink uj fetch base acc a with
    | .error e => .error e
    | .ok acc2 => linkLoop uj fetch base rest acc2

/-- Embedding of `Scraper.extract_next_links`. Oracle parameters: `soup` is the
BeautifulSoup parse of the content, `uj` is `urljoin`, `h` is Python's seeded
`hash` on string tuples, `fetch` stands for the unreachable robots read. A
`.error` result models an exception propagating to the caller (in Python the
class-level mutations made before the raise would survive; the claims here
quantify over successful calls, whose state the model returns exactly). -/
def extract_next_links (soup : String → SoupData) (uj : String → Option String → String)
    (h : List String → Int) (fetch : String → String → Bool)
    (st : ScraperState) (url : String) (resp : Response) :
    Except PyErr (List String × ScraperState) :=
  match urldefragE (pyLower resp.url) with
  | .error e => .error e
  | .ok dfr =>
  match urlparseE false dfr.url with
  | .error e => .error e
  | .ok prs =>
  let no_scheme_url := pageKey prs
  if !([200, 301, 302, 307, 308].contains resp.status) then .ok ([], st)
  else
  match resp.raw_response with
  | none => .ok ([], st)
  | some rr =>
  if no_scheme_url ∈ st.visited_pages then .ok ([], st)
  else
  match is_valid dfr.url with
  | .error e => .error e
  | .ok valid =>
  if !valid then .ok ([], st)
  else
  let rchk := check_robots_txt fetch st.robot_allowed (pyLower resp.url)
  let st1 := { st with robot_allowed := rchk.2 }
  if !rchk.1 then .ok ([], st1)
  else
  let st2 := { st1 with visited_pages := insert no_scheme_url st1.visited_pages,
                        pages_in_front := st1.pages_in_front.erase no_scheme_url }
  let st3 :=
    if icsHostMatch prs.netloc then
      { st2 with ics_subdomains := dictIncr st2.ics_subdomains prs.netloc }
    else st2
  let page_words := tokenize (pyLower (soup rr.content).text)
  if !page_is_valid_size page_words then .ok ([], st3)
  else
  let page_fingerprint := create_fingerprint h page_words
  if check_for_recent_trap st3.all_fingerprints page_fingerprint then .ok ([], st3)
  else
  let st4 := { st3 with all_fingerprints := st3.all_fingerprints ++ [page_fingerprint] }
  let st5 := update_longest_page_and_word_count st4 page_words (pyLower resp.url)
  match linkLoop uj fetch (pyLower resp.url) (soup rr.content).anchors ([], st5) with
  | .error e => .error e
  | .ok (next_links, st6) =>
  if pyLower url ≠ pyLower resp.url then
    match urldefragE (pyLower url) with
    | .error e => .error e
    | .ok odfr =>
    match urlparseE false odfr.url with
    | .error e => .error e
    | .ok oprs =>
    .ok (next_links, { st6 with visited_pages := insert (pageKey oprs) st6.visited_pages,
                                num_redirect := st6.num_redirect + 1 })
  else .ok (next_links, st6)

/-- The filtering comprehension of `Scraper.scraper`, evaluated left to right
with `is_valid` exceptions propagating. -/
def filterValid : List String → Except PyErr (List String)
  | [] => .ok []
  | l :: t =>
    match is_valid l with
    | .error e => .error e
    | .ok v =>
      match filterValid t with
      | .error e => .error e
      | .ok r => .ok (if v then l :: r else r)

/-- Embedding of `Scraper.scraper`. -/
def scraper (soup : String → SoupData) (uj : String → Option String → String)
    (h : List String → Int) (fetch : String → String → Bool)
    (st : ScraperState) (url : String) (resp : Response) :
    Except PyErr (List String × ScraperState) :=
  match extract_next_links soup uj h fetch st url resp with
  | .error e => .error e
  | .ok (links, st2) =>
    match filterValid links with
    | .error e => .error e
    | .ok kept => .ok (kept, st2)

/-! ### The statistics report `ouput_crawl_statistics` (source spelling kept) -/

/-- Sort key of line 142: `key=lambda item: item[1]` — ascending by count;
Python's sort is stable, as is `List.mergeSort`. -/
def word_count_le (a b : String × Nat) : Bool :=
  a.2 ≤ b.2

/-- Sort key of line 146: `key=lambda item: (item[0], item[1])` — tuple order,
host first. -/
def subdomain_le (a b : String × Nat) : Bool :=
  strLtB a.1 b.1 || (a.1 == b.1 && a.2 ≤ b.2)

/-- Embedding of `Scraper.ouput_crawl_statistics`: the sequence of strings
written to the report file, one list element per `file.write` call. -/
def ouput_crawl_statistics (st : ScraperState) : List String :=
  ["CS 121/INF 141 - Assignment 2: Web Crawler - Crawl Summary\n",
   "IR US24 70346322\n\n",
   "Total unique pages found = " ++
     toString ((st.visited_pages.card : Int) - (st.num_redirect : Int)) ++ "\n\n",
   "Longest page = " ++ st.longest_page.1 ++ " with " ++
     toString st.longest_page.2 ++ " words\n\n",
   "Top 50 most common words (excluding stop words):\n"]
  ++ ((st.word_count.mergeSort word_count_le).take 50).map (fun kv => "\t" ++ kv.1 ++ "\n")
  ++ ["\n", "ics.uci.edu Subdomains:\n"]
  ++ (st.ics_subdomains.mergeSort subdomain_le).map
      (fun kv => "\thttp://" ++ kv.1 ++ ", " ++ toString kv.2 ++ "\n")

/-! ### Concrete instantiations of the oracles, used by the closed theorems -/

/-- A page body of `n` tokens: the character list of `"0 0 0 ... 0 "`. -/
def mkText : Nat → List Char
  | 0 => []
  | n + 1 => '0' :: ' ' :: mkText n

/-- A BeautifulSoup oracle whose text tokenizes to `n` copies of `"0"` and that
reports no anchors. -/
def soupOf (n : Nat) : String → SoupData := fun _ => ⟨String.mk (mkText n), []⟩

/-- A `urljoin` oracle (never consulted on pages without anchors). -/
def ujNone : String → Option String → String := fun b _ => b

/-- A hash oracle: every shingle hashes to 1 (1 % 4 ≠ 0, empty fingerprint). -/
def hashOne : List String → Int := fun _ => 1

/-- A robots oracle that would allow everything (unreachable anyway). -/
def fetchTrue : String → String → Bool := fun _ _ => true

/-! ### Basic lemmas about the embedded operations -/

/-- The politeness check never blocks and never writes to the cache: the
`urlparse` call inside it receives a `DefragResult` instead of a string, the
resulting `AttributeError` is swallowed by `except Exception: pass`, and the
function falls through to `return True`. -/
theorem check_robots_txt_allows (fetch : String → String → Bool)
    (cache : List (String × Bool)) (url : String) :
    check_robots_txt fetch cache url = (true, cache) := by
  unfold check_robots_txt robotsTryBody
  cases urldefragE (pyLower url) <;> rfl

theorem update_lpwc_visited_pages (st : ScraperState) (ws : List String) (u : String) :
    (update_longest_page_and_word_count st ws u).visited_pages = st.visited_pages := by
  unfold update_longest_page_and_word_count
  split <;> rfl

theorem update_lpwc_pages_in_front (st : ScraperState) (ws : List String) (u : String) :
    (update_longest_page_and_word_count st ws u).pages_in_front = st.pages_in_front := by
  unfold update_longest_page_and_word_count
  split <;> rfl

theorem inter_erase_empty {V F : Finset String} (k : String)
    (h : V ∩ F = ∅) : (insert k V) ∩ (F.erase k) = ∅ := by
  rw [Finset.eq_empty_iff_forall_not_mem] at h ⊢
  intro x hx
  rw [Finset.mem_inter, Finset.mem_insert, Finset.mem_erase] at hx
  rcases hx with ⟨hv, hne, hf⟩
  rcases hv with rfl | hv
  · exact hne rfl
  · exact h x (Finset.mem_inter.mpr ⟨hv, hf⟩)

theorem inter_insert_empty {V F : Finset String} {k : String}
    (h : V ∩ F = ∅) (hk : k ∉ V) : V ∩ (insert k F) = ∅ := by
  rw [Finset.eq_empty_iff_forall_not_mem] at h ⊢
  intro x hx
  rw [Finset.mem_inter, Finset.mem_insert] at hx
  rcases hx with ⟨hv, rfl | hf⟩
  · exact hk hv
  · exact h x (Finset.mem_inter.mpr ⟨hv, hf⟩)

/-! ### Claims C3, C4, C7 -/

/-- C4: for every input URL string, `check_robots_txt` returns True and leaves
the `robot_allowed` cache unchanged: `urlparse` is applied to the
`DefragResult` tuple returned by `urldefrag`, which raises before any cache
lookup or network read, the blanket handler swallows the error, and the
function falls through to `return True` — the politeness gate never blocks any
URL. The statement holds for every robots oracle `fetch`, i.e. for every
possible content of the unreachable network read. -/
theorem c4_check_robots_txt_always_true (fetch : String → String → Bool)
    (cache : List (String × Bool)) (url : String) :
    check_robots_txt fetch cache url = (true, cache) :=
  check_robots_txt_allows fetch cache url

/-- C3 (code bug): the first politeness query for an origin does NOT fetch or
parse the robots policy and does NOT cache a verdict. Evaluated at a first-ever
query (empty cache) for `http://www.ics.uci.edu/` with an oracle that would
DENY everything: the call still returns True and the cache stays empty, so no
policy document was consulted and nothing was stored under the origin key. -/
theorem c3_robots_first_query_no_fetch_no_cache :
    check_robots_txt (fun _ _ => false) [] "http://www.ics.uci.edu/" = (true, []) := by decide

/-- C7 (code bug): the fingerprint of a fixed token sequence depends on the
hash oracle. CPython's `hash` on tuples of strings is salted by
`PYTHONHASHSEED`, i.e. it is a different oracle in each process, so two
processes can produce different fingerprints for the token sequence
`["a","b","c","d","e"]` — the claimed cross-process determinism fails. -/
theorem c7_fingerprint_depends_on_hash_oracle :
    create_fingerprint (fun _ => 0) ["a", "b", "c", "d", "e"] ≠
    create_fingerprint (fun _ => 1) ["a", "b", "c", "d", "e"] := by decide

/-! ### Claim C6: shingle structure of `create_fingerprint` -/

/-- Specification-side description of the shingling: the overlapping windows of
exactly 3 consecutive tokens, defined by direct recursion. -/
def windows3 : List String → List (List String)
  | a :: b :: c :: rest => [a, b, c] :: windows3 (b :: c :: rest)
  | _ => []

theorem threeGramsList_eq_windows3 : (ws : List String) → threeGramsList ws = windows3 ws
  | [] => rfl
  | [_] => rfl
  | [_, _] => rfl
  | a :: b :: c :: rest => by
    have ih := threeGramsList_eq_windows3 (b :: c :: rest)
    show threeGramsList (a :: b :: c :: rest) = [a, b, c] :: windows3 (b :: c :: rest)
    rw [← ih]
    unfold threeGramsList
    simp only [List.length_cons]
    rw [show rest.length + 1 + 1 + 1 - 2 = rest.length + 1 from rfl,
        show rest.length + 1 + 1 - 2 = rest.length from rfl,
        List.range_succ_eq_map, List.map_cons, List.map_map]
    rfl

theorem windows3_length (ws : List String) : (windows3 ws).length = ws.length - 2 := by
  rw [← threeGramsList_eq_windows3]
  unfold threeGramsList
  simp

theorem windows3_all_three : (ws : List String) → (windows3 ws).all (fun w => w.length == 3) = true
  | [] => rfl
  | [_] => rfl
  | [_, _] => rfl
  | _ :: b :: c :: rest => by
    have ih := windows3_all_three (b :: c :: rest)
    simp only [windows3, List.all_cons, ih, Bool.and_true]
    rfl

/-- C6: for every hash oracle and token sequence of length n,
`create_fingerprint` forms exactly the n−2 overlapping windows of exactly 3
consecutive tokens (none when n < 3), hashes each, and returns the set of those
hashes whose value modulo 4 equals 0. -/
theorem c6_fingerprint_shingles_mod4 (h : List String → Int) (ws : List String) :
    create_fingerprint h ws =
      (((windows3 ws).map h).filter (fun gram_hash => gram_hash % 4 == 0)).toFinset ∧
    (windows3 ws).length = ws.length - 2 ∧
    (windows3 ws).all (fun w => w.length == 3) = true := by
  refine ⟨?_, windows3_length ws, windows3_all_three ws⟩
  unfold create_fingerprint
  rw [threeGramsList_eq_windows3]

/-! ### Claim C5: the trap-detection window -/

/-- Arithmetic characterization of the Jaccard threshold test (the ℚ division
compared against 9/10 is equivalent to a cross-multiplied Nat inequality; for
empty unions both sides hold). -/
theorem fingerprints_are_similar_iff (f1 f2 : Finset Int) :
    fingerprints_are_similar f1 f2 = true ↔
      9 * (f1 ∪ f2).card ≤ 10 * (f1 ∩ f2).card := by
  unfold fingerprints_are_similar PAGE_SIMILARITY_THRESHOLD
  rw [decide_eq_true_iff]
  by_cases h : (f1 ∪ f2).card = 0
  · have h2 : (f1 ∩ f2).card = 0 := by
      have hsub := Finset.card_le_card (Finset.inter_subset_union : f1 ∩ f2 ⊆ f1 ∪ f2)
      omega
    simp only [h, h2]
    norm_num
  · rw [if_pos h]
    have hu : (0 : ℚ) < ((f1 ∪ f2).card : ℚ) := by
      exact_mod_cast Nat.pos_of_ne_zero h
    rw [ge_iff_le, div_le_div_iff₀ (by norm_num : (0 : ℚ) < 10) hu]
    rw [show (10 : ℚ) = ((10 : ℕ) : ℚ) from by norm_num,
        show (9 : ℚ) = ((9 : ℕ) : ℚ) from by norm_num,
        ← Nat.cast_mul, ← Nat.cast_mul, Nat.cast_le]
    omega

/-- C5: `check_for_recent_trap` returns False whenever the history holds at
most 25 entries; once the history length exceeds 25, it returns True iff some
fingerprint at an index between len-26 (= len-1-W) and len-2 — the 25 entries
ending one position before the most recent — is similar to the new
fingerprint. -/
theorem c5_trap_window_characterization (fps : List (Finset Int)) (fp : Finset Int) :
    (fps.length ≤ 25 → check_for_recent_trap fps fp = false) ∧
    (25 < fps.length →
      (check_for_recent_trap fps fp = true ↔
        ∃ i, fps.length - 26 ≤ i ∧ i ≤ fps.length - 2 ∧
          fingerprints_are_similar fp (fps.getD i ∅) = true)) := by
  constructor
  · intro hle
    unfold check_for_recent_trap TRAP_FINGERPRINT_CHECK
    rw [if_pos hle]
  · intro hgt
    unfold check_for_recent_trap TRAP_FINGERPRINT_CHECK
    rw [if_neg (by omega)]
    rw [List.any_eq_true]
    constructor
    · rintro ⟨j, hj, hsim⟩
      rw [List.mem_range] at hj
      exact ⟨fps.length - 2 - j, by omega, by omega, hsim⟩
    · rintro ⟨i, h1, h2, hsim⟩
      refine ⟨fps.length - 2 - i, List.mem_range.mpr (by omega), ?_⟩
      have hii : fps.length - 2 - (fps.length - 2 - i) = i := by omega
      rw [hii]
      exact hsim

/-- Witness for C5: with 25 stored fingerprints nothing is flagged; with 26
identical stored fingerprints, the identical new fingerprint is flagged. -/
theorem c5_trap_window_characterization_witness :
    check_for_recent_trap (List.replicate 25 ({0} : Finset Int)) {0} = false ∧
    check_for_recent_trap (List.replicate 26 ({0} : Finset Int)) {0} = true := by
  constructor
  · exact (c5_trap_window_characterization (List.replicate 25 {0}) {0}).1 (by decide)
  · exact ((c5_trap_window_characterization (List.replicate 26 {0}) {0}).2 (by decide)).mpr
      ⟨0, by decide, by decide, (fingerprints_are_similar_iff {0} {0}).mpr (by decide)⟩

/-! ### Claims C8 and C9: `is_valid` -/

/-- C8 counterexample: `is_valid` raises. On `"http://["`, `urlparse` raises
`ValueError` ("Invalid IPv6 URL"); the only handler in `is_valid` catches
`TypeError` (and then re-raises anyway), so the `ValueError` propagates to the
caller instead of yielding a False return. -/
theorem c8_is_valid_raises_on_invalid_ipv6 :
    is_valid "http://[" = .error .valueError := by decide

/-- C8 amended: `is_valid` equals the rule conjunction mapped over the parse —
on a successful parse any rule failure yields False (and no exception), while
a parse failure propagates as the raised error rather than producing False. -/
theorem c8_is_valid_rules_or_raise (url : String) :
    is_valid url = (urlparseE true url).map is_valid_rules := by
  unfold is_valid
  cases hp : urlparseE true url with
  | error e => rfl
  | ok prs =>
    unfold is_valid_rules
    by_cases h1 : prs.scheme = "http" ∨ prs.scheme = "https"
    · have e1 : (prs.scheme == "http" || prs.scheme == "https") = true := by
        rcases h1 with h | h <;> simp [h]
      by_cases h2 : domainOk prs.netloc = true
      · cases h3 : strContains "/pdf" prs.path
        · cases h4 : strContains "diff" prs.query && strContains "rev" prs.query
          · simp [Except.map, h1, h2, e1, h3, h4]
          · simp [Except.map, h1, h2, e1, h3, h4]
        · simp [Except.map, h1, h2, e1, h3]
      · have e2 : domainOk prs.netloc = false := by
          cases hdo : domainOk prs.netloc
          · rfl
          · exact absurd hdo h2
        simp [Except.map, h1, h2, e1, e2]
    · have e1 : (prs.scheme == "http" || prs.scheme == "https") = false := by
        push_neg at h1
        simp [h1.1, h1.2]
      simp [Except.map, h1, e1]

/-- Split a character list at every occurrence of `sep`. -/
def splitParts (sep : Char) : List Char → List (List Char)
  | [] => [[]]
  | x :: t =>
    let r := splitParts sep t
    if x = sep then [] :: r
    else
      match r with
      | [] => [[x]]
      | hpart :: t2 => (x :: hpart) :: t2

/-- Specification-side reading of "the query string carries a key": the
parameter names of the query, i.e. for each `&`-separated part, the text before
its first `=`. Used only to compare the code's behaviour with the claim's
key-based wording. -/
def queryKeys (q : String) : List String :=
  (splitParts '&' q.data).map (fun p =>
    match splitFirst p '=' with
    | none => String.mk p
    | some (k, _) => String.mk k)

/-- C9 counterexample: the query `diffuse=1&revolve=2` carries neither a
`diff` key nor a `rev` key, yet the URL is rejected — and it is rejected by
the revision rule specifically, since the identical URL without the query is
accepted. The code tests substring containment of `"diff"` and `"rev"` in the
raw query string, not key membership. -/
theorem c9_substring_not_key_counterexample :
    is_valid "http://www.ics.uci.edu/x?diffuse=1&revolve=2" = .ok false ∧
    is_valid "http://www.ics.uci.edu/x" = .ok true ∧
    queryKeys "diffuse=1&revolve=2" = ["diffuse", "revolve"] ∧
    "diff" ∉ queryKeys "diffuse=1&revolve=2" ∧
    "rev" ∉ queryKeys "diffuse=1&revolve=2" := by decide

/-- C9 amended: for a URL whose other four rules all pass, `is_valid` rejects
exactly when `"diff"` and `"rev"` both occur as substrings of the query string
(which is implied by, but does not require, the presence of both keys). -/
theorem c9_revision_rule_is_substring_test (url : String) (prs : ParseResult)
    (hp : urlparseE true url = .ok prs)
    (hs : prs.scheme = "http" ∨ prs.scheme = "https")
    (hdom : domainOk prs.netloc = true)
    (hpdf : strContains "/pdf" prs.path = false)
    (hext : extensionBad (pyLower prs.path) = false) :
    (is_valid url = .ok false ↔
      (strContains "diff" prs.query && strContains "rev" prs.query) = true) := by
  unfold is_valid
  rw [hp]
  cases h4 : strContains "diff" prs.query && strContains "rev" prs.query
  · simp [hs, hdom, hpdf, hext, h4]
  · simp [hs, hdom, hpdf, hext, h4]

/-- Witness for C9 amended: a query carrying both a `diff` key and a `rev` key
contains both substrings and is rejected. -/
theorem c9_revision_rule_is_substring_test_witness :
    is_valid "http://www.ics.uci.edu/x?diff=1&rev=2" = .ok false :=
  (c9_revision_rule_is_substring_test "http://www.ics.uci.edu/x?diff=1&rev=2"
    ⟨"http", "www.ics.uci.edu", "/x", "", "diff=1&rev=2", ""⟩
    (by decide) (Or.inl rfl) (by decide) (by decide) (by decide)).mpr (by decide)

/-! ### Claim C10: the statistics report -/

theorem ltChars_trans (a : List Char) : ∀ b c : List Char,
    ltChars a b = true → ltChars b c = true → ltChars a c = true := by
  induction a with
  | nil =>
    intro b c h1 h2
    cases b with
    | nil => simp [ltChars] at h1
    | cons bh bt =>
      cases c with
      | nil => simp [ltChars] at h2
      | cons ch ct => simp [ltChars]
  | cons ah as1 ih =>
    intro b c h1 h2
    cases b with
    | nil => simp [ltChars] at h1
    | cons bh bt =>
      cases c with
      | nil => simp [ltChars] at h2
      | cons ch ct =>
        simp only [ltChars] at h1 h2 ⊢
        by_cases hab : ah = bh
        · by_cases hbc : bh = ch
          · rw [if_pos (hab.trans hbc)]
            rw [if_pos hab] at h1
            rw [if_pos hbc] at h2
            exact ih bt ct h1 h2
          · rw [if_neg hbc] at h2
            have hlt : bh < ch := by simpa using h2
            rw [if_neg (by rw [hab]; exact ne_of_lt hlt)]
            simp [hab ▸ hlt]
        · rw [if_neg hab] at h1
          have hlt1 : ah < bh := by simpa using h1
          by_cases hbc : bh = ch
          · rw [if_neg (by rw [← hbc]; exact ne_of_lt hlt1)]
            simp [hbc ▸ hlt1]
          · rw [if_neg hbc] at h2
            have hlt2 : bh < ch := by simpa using h2
            rw [if_neg (ne_of_lt (lt_trans hlt1 hlt2))]
            simp [lt_trans hlt1 hlt2]

theorem ltChars_trichotomy (a : List Char) : ∀ b : List Char,
    ltChars a b = true ∨ a = b ∨ ltChars b a = true := by
  induction a with
  | nil =>
    intro b
    cases b with
    | nil => right; left; rfl
    | cons bh bt => left; simp [ltChars]
  | cons ah as1 ih =>
    intro b
    cases b with
    | nil => right; right; simp [ltChars]
    | cons bh bt =>
      by_cases hab : ah = bh
      · rcases ih bt with h | h | h
        · left; simp [ltChars, if_pos hab, h]
        · right; left; rw [hab, h]
        · right; right; simp [ltChars, if_pos hab.symm, h]
      · rcases lt_trichotomy ah bh with hlt | heq | hlt
        · left; simp [ltChars, if_neg hab, hlt]
        · exact absurd heq hab
        · right; right; simp [ltChars, if_neg (Ne.symm hab), hlt]

theorem subdomain_le_trans (a b c : String × Nat)
    (h1 : subdomain_le a b = true) (h2 : subdomain_le b c = true) :
    subdomain_le a c = true := by
  simp only [subdomain_le, Bool.or_eq_true, Bool.and_eq_true, beq_iff_eq,
    decide_eq_true_eq] at h1 h2 ⊢
  rcases h1 with h1 | ⟨e1, l1⟩
  · rcases h2 with h2 | ⟨e2, l2⟩
    · exact Or.inl (ltChars_trans a.1.data b.1.data c.1.data h1 h2)
    · left; rw [strLtB] at h1 ⊢; rw [← e2]; exact h1
  · rcases h2 with h2 | ⟨e2, l2⟩
    · left; rw [strLtB] at h2 ⊢; rw [e1]; exact h2
    · exact Or.inr ⟨e1.trans e2, le_trans l1 l2⟩

theorem subdomain_le_total (a b : String × Nat) :
    (subdomain_le a b || subdomain_le b a) = true := by
  simp only [subdomain_le, Bool.or_eq_true, Bool.and_eq_true, beq_iff_eq,
    decide_eq_true_eq]
  rcases ltChars_trichotomy a.1.data b.1.data with h | h | h
  · exact Or.inl (Or.inl h)
  · have e : a.1 = b.1 := String.ext h
    rcases Nat.le_total a.2 b.2 with l | l
    · exact Or.inl (Or.inr ⟨e, l⟩)
    · exact Or.inr (Or.inr ⟨e.symm, l⟩)
  · exact Or.inr (Or.inl h)

/-- C10: `ouput_crawl_statistics` renders the header, a total equal to
`|visited_pages| - num_redirect` (as a Python int), the word section as the
first 50 entries of `word_count` under an ascending-by-count stable sort, and
the subdomain table under a sort whose host components are ascending. -/
theorem c10_statistics_rendering (st : ScraperState) :
    ∃ wcSorted sdSorted : List (String × Nat),
      wcSorted.Perm st.word_count ∧
      wcSorted.Pairwise (fun a b => a.2 ≤ b.2) ∧
      sdSorted.Perm st.ics_subdomains ∧
      (sdSorted.map Prod.fst).Pairwise (fun a b => strLtB a b = true ∨ a = b) ∧
      ouput_crawl_statistics st =
        ["CS 121/INF 141 - Assignment 2: Web Crawler - Crawl Summary\n",
         "IR US24 70346322\n\n",
         "Total unique pages found = " ++
           toString ((st.visited_pages.card : Int) - (st.num_redirect : Int)) ++ "\n\n",
         "Longest page = " ++ st.longest_page.1 ++ " with " ++
           toString st.longest_page.2 ++ " words\n\n",
         "Top 50 most common words (excluding stop words):\n"]
        ++ (wcSorted.take 50).map (fun kv => "\t" ++ kv.1 ++ "\n")
        ++ ["\n", "ics.uci.edu Subdomains:\n"]
        ++ sdSorted.map (fun kv => "\thttp://" ++ kv.1 ++ ", " ++ toString kv.2 ++ "\n") := by
  refine ⟨st.word_count.mergeSort word_count_le, st.ics_subdomains.mergeSort subdomain_le,
    List.mergeSort_perm st.word_count word_count_le, ?_,
    List.mergeSort_perm st.ics_subdomains subdomain_le, ?_, rfl⟩
  · have hs := @List.sorted_mergeSort _ word_count_le
      (fun a b c h1 h2 => by
        simp only [word_count_le, decide_eq_true_eq] at h1 h2 ⊢
        exact le_trans h1 h2)
      (fun a b => by
        simp only [word_count_le, Bool.or_eq_true, decide_eq_true_eq]
        exact Nat.le_total a.2 b.2)
      st.word_count
    exact hs.imp (fun h => by simpa [word_count_le] using h)
  · have hs := @List.sorted_mergeSort _ subdomain_le
      subdomain_le_trans subdomain_le_total st.ics_subdomains
    rw [List.pairwise_map]
    exact hs.imp (fun h => by
      simp only [subdomain_le, Bool.or_eq_true, Bool.and_eq_true, beq_iff_eq,
        decide_eq_true_eq] at h
      rcases h with h | ⟨e, _⟩
      · exact Or.inl h
      · exact Or.inr e)

/-! ### Claim C2: the size gate is not inert -/

/-- C2 amended: a call that passes the status, identity, validator and
politeness gates but fails the size gate returns the empty list and leaves
`word_count`, `longest_page`, `all_fingerprints`, `num_redirect` and
`robot_allowed` unchanged — but it is NOT fully inert: the page's identity key
is added to `visited_pages` and discarded from `pages_in_front`, and
`ics_subdomains` is incremented when the host matches, because those mutations
happen before the size check. -/
theorem c2_size_gate_partial_mutation
    (soup : String → SoupData) (uj : String → Option String → String)
    (h : List String → Int) (fetch : String → String → Bool)
    (st : ScraperState) (url : String) (resp : Response)
    (dfr : DefragResult) (prs : ParseResult) (rr : RawResponse)
    (hd : urldefragE (pyLower resp.url) = .ok dfr)
    (hp : urlparseE false dfr.url = .ok prs)
    (hstat : [200, 301, 302, 307, 308].contains resp.status = true)
    (hraw : resp.raw_response = some rr)
    (hkey : pageKey prs ∉ st.visited_pages)
    (hval : is_valid dfr.url = .ok true)
    (hsize : page_is_valid_size (tokenize (pyLower (soup rr.content).text)) = false) :
    ∃ st2, extract_next_links soup uj h fetch st url resp = .ok ([], st2) ∧
      st2.visited_pages = insert (pageKey prs) st.visited_pages ∧
      st2.pages_in_front = st.pages_in_front.erase (pageKey prs) ∧
      st2.ics_subdomains = (if icsHostMatch prs.netloc then
        dictIncr st.ics_subdomains prs.netloc else st.ics_subdomains) ∧
      st2.word_count = st.word_count ∧
      st2.longest_page = st.longest_page ∧
      st2.all_fingerprints = st.all_fingerprints ∧
      st2.num_redirect = st.num_redirect ∧
      st2.robot_allowed = st.robot_allowed := by
  unfold extract_next_links
  simp only [hd, hp, hstat, hraw, hval, hsize, check_robots_txt_allows, hkey,
    Bool.not_true, Bool.not_false, if_false, if_true, ite_false, ite_true,
    not_false_eq_true, decide_eq_true_eq]
  refine ⟨_, rfl, ?_, ?_, ?_, ?_, ?_, ?_, ?_, ?_⟩ <;>
    cases hics : icsHostMatch prs.netloc <;> simp [hics]

/-- The response of the concrete size-gate scenario: a 200 response for an
eligible URL whose page text tokenizes to only 50 words. -/
def c2resp : Response := ⟨"http://www.ics.uci.edu/small", 200, some ⟨"c"⟩⟩

def c2prs : ParseResult := ⟨"http", "www.ics.uci.edu", "/small", "", "", ""⟩

/-- Witness for C2 amended, at the concrete 50-token scenario. -/
theorem c2_size_gate_partial_mutation_witness :
    ∃ st2, extract_next_links (soupOf 50) ujNone hashOne fetchTrue initState
        "http://www.ics.uci.edu/small" c2resp = .ok ([], st2) ∧
      st2.visited_pages = insert (pageKey c2prs) initState.visited_pages ∧
      st2.pages_in_front = initState.pages_in_front.erase (pageKey c2prs) ∧
      st2.ics_subdomains = (if icsHostMatch c2prs.netloc then
        dictIncr initState.ics_subdomains c2prs.netloc else initState.ics_subdomains) ∧
      st2.word_count = initState.word_count ∧
      st2.longest_page = initState.longest_page ∧
      st2.all_fingerprints = initState.all_fingerprints ∧
      st2.num_redirect = initState.num_redirect ∧
      st2.robot_allowed = initState.robot_allowed :=
  c2_size_gate_partial_mutation (soupOf 50) ujNone hashOne fetchTrue initState
    "http://www.ics.uci.edu/small" c2resp ⟨"http://www.ics.uci.edu/small", ""⟩ c2prs ⟨"c"⟩
    (by decide) (by decide) (by decide) rfl (by decide) (by decide) (by decide)

/-- The full state after the concrete size-gated call. -/
def c2after : ScraperState :=
  { initState with visited_pages := {"www.ics.uci.edu/small"},
                   ics_subdomains := [("www.ics.uci.edu", 1)] }

set_option maxRecDepth 40000 in
/-- C2 counterexample: a call that satisfies the claim's premise (success
status, unvisited eligible URL, politeness passed, only 50 extracted tokens)
returns the empty list but mutates the session state: `visited_pages` gains
the identity key, so the call is not inert. -/
theorem c2_size_gate_not_inert_counterexample :
    [200, 301, 302, 307, 308].contains c2resp.status = true ∧
    is_valid "http://www.ics.uci.edu/small" = .ok true ∧
    page_is_valid_size (tokenize (pyLower ((soupOf 50) "c").text)) = false ∧
    extract_next_links (soupOf 50) ujNone hashOne fetchTrue initState
      "http://www.ics.uci.edu/small" c2resp = .ok ([], c2after) ∧
    c2after.visited_pages ≠ initState.visited_pages := by decide

/-! ### Claim C1: disjointness of `visited_pages` and `pages_in_front` -/

theorem ite_state_visited_pages (b : Prop) [Decidable b] (s : ScraperState)
    (x : List (String × Nat)) :
    (if b then { s with ics_subdomains := x } else s).visited_pages = s.visited_pages := by
  split <;> rfl

theorem ite_state_pages_in_front (b : Prop) [Decidable b] (s : ScraperState)
    (x : List (String × Nat)) :
    (if b then { s with ics_subdomains := x } else s).pages_in_front = s.pages_in_front := by
  split <;> rfl

/-- One loop iteration never touches `visited_pages` and preserves the
disjointness of the two sets: a key is only inserted into `pages_in_front`
after the membership tests against both sets have failed. -/
theorem admitLink_inv (uj : String → Option String → String) (fetch : String → String → Bool)
    (base : String) (acc : List String × ScraperState) (href : Option String)
    (acc2 : List String × ScraperState)
    (hok : admitLink uj fetch base acc href = .ok acc2) :
    acc2.2.visited_pages = acc.2.visited_pages ∧
    (acc.2.visited_pages ∩ acc.2.pages_in_front = ∅ →
      acc2.2.visited_pages ∩ acc2.2.pages_in_front = ∅) := by
  unfold admitLink at hok
  cases hd : urldefragE (pyLower (uj base href)) with
  | error e => rw [hd] at hok; exact Except.noConfusion hok
  | ok d =>
    simp only [hd] at hok
    cases hp : urlparseE false d.url with
    | error e => simp only [hp] at hok; exact Except.noConfusion hok
    | ok np =>
      simp only [hp, check_robots_txt_allows] at hok
      split at hok
      · cases hok; exact ⟨rfl, fun hh => hh⟩
      · cases hv : is_valid d.url with
        | error e => simp only [hv] at hok; exact Except.noConfusion hok
        | ok v =>
          simp only [hv] at hok
          split at hok
          · cases hok; exact ⟨rfl, fun hh => hh⟩
          · split at hok
            · cases hok; exact ⟨rfl, fun hh => hh⟩
            · split at hok
              · cases hok; exact ⟨rfl, fun hh => hh⟩
              · rename_i hnv
                split at hok
                · cases hok; exact ⟨rfl, fun hh => hh⟩
                · cases hok
                  refine ⟨rfl, fun hh => ?_⟩
                  exact inter_insert_empty hh hnv

/-- The whole link loop never touches `visited_pages` and preserves the
disjointness invariant. -/
theorem linkLoop_inv (uj : String → Option String → String) (fetch : String → String → Bool)
    (base : String) : ∀ (anchors : List (Option String)) (acc res : List String × ScraperState),
    linkLoop uj fetch base anchors acc = .ok res →
    res.2.visited_pages = acc.2.visited_pages ∧
    (acc.2.visited_pages ∩ acc.2.pages_in_front = ∅ →
      res.2.visited_pages ∩ res.2.pages_in_front = ∅)
  | [], acc, res, hok => by
    cases hok
    exact ⟨rfl, fun hh => hh⟩
  | a :: rest, acc, res, hok => by
    unfold linkLoop at hok
    cases ha : admitLink uj fetch base acc a with
    | error e => rw [ha] at hok; exact Except.noConfusion hok
    | ok acc2 =>
      rw [ha] at hok
      have h1 := admitLink_inv uj fetch base acc a acc2 ha
      have h2 := linkLoop_inv uj fetch base rest acc2 res hok
      refine ⟨h2.1.trans h1.1, fun hd => ?_⟩
      exact h2.2 (h1.2 hd)

/-- Disjointness is preserved by the tail of the pipeline (size gate, trap
gate, link loop, redirect branch), for any already-marked state `ST` whose two
sets are disjoint, provided no redirect occurred. -/
theorem tailDisjoint (uj : String → Option String → String) (fetch : String → String → Bool)
    (soupd : SoupData) (base url : String) (h : List String → Int)
    (ST : ScraperState) (links : List String) (st2 : ScraperState) (words : List String)
    (hnored : pyLower url = base)
    (hdisjST : ST.visited_pages ∩ ST.pages_in_front = ∅)
    (hok : (if (!page_is_valid_size words) = true then Except.ok ([], ST)
            else
              if check_for_recent_trap ST.all_fingerprints (create_fingerprint h words) = true then
                Except.ok ([], ST)
              else
                match linkLoop uj fetch base soupd.anchors
                    ([], update_longest_page_and_word_count
                          { ST with all_fingerprints :=
                              ST.all_fingerprints ++ [create_fingerprint h words] }
                          words base) with
                | .error e => .error e
                | .ok (next_links, st6) =>
                  if pyLower url ≠ base then
                    match urldefragE (pyLower url) with
                    | .error e => .error e
                    | .ok odfr =>
                      match urlparseE false odfr.url with
                      | .error e => .error e
                      | .ok oprs =>
                        .ok (next_links, { st6 with
                          visited_pages := insert (pageKey oprs) st6.visited_pages,
                          num_redirect := st6.num_redirect + 1 })
                  else .ok (next_links, st6)) = .ok (links, st2)) :
    st2.visited_pages ∩ st2.pages_in_front = ∅ := by
  split at hok
  · cases hok; exact hdisjST
  · split at hok
    · cases hok; exact hdisjST
    · split at hok
      · exact Except.noConfusion hok
      · rename_i next_links st6 heq
        split at hok
        · rename_i hcond
          exact absurd hnored hcond
        · cases hok
          have hinv := linkLoop_inv uj fetch base soupd.anchors _ _ heq
          refine hinv.2 ?_
          simp only [update_lpwc_visited_pages, update_lpwc_pages_in_front]
          exact hdisjST

/-- C1 amended: after every successful call in which no redirect occurred
(request URL and response URL agree after lowercasing), disjointness of
`visited_pages` and `pages_in_front` is preserved. (A successful redirected
call can break it: the pre-redirect identity key is added to `visited_pages`
without being discarded from `pages_in_front`.) -/
theorem c1_no_redirect_preserves_disjointness
    (soup : String → SoupData) (uj : String → Option String → String)
    (h : List String → Int) (fetch : String → String → Bool)
    (st : ScraperState) (url : String) (resp : Response)
    (links : List String) (st2 : ScraperState)
    (hnored : pyLower url = pyLower resp.url)
    (hdisj : st.visited_pages ∩ st.pages_in_front = ∅)
    (hok : extract_next_links soup uj h fetch st url resp = .ok (links, st2)) :
    st2.visited_pages ∩ st2.pages_in_front = ∅ := by
  unfold extract_next_links at hok
  cases hd : urldefragE (pyLower resp.url) with
  | error e => rw [hd] at hok; exact Except.noConfusion hok
  | ok dfr =>
    simp only [hd] at hok
    cases hp : urlparseE false dfr.url with
    | error e => simp only [hp] at hok; exact Except.noConfusion hok
    | ok prs =>
      simp only [hp, check_robots_txt_allows] at hok
      split at hok
      · cases hok; exact hdisj
      · cases hraw : resp.raw_response with
        | none => simp only [hraw] at hok; cases hok; exact hdisj
        | some rr =>
          simp only [hraw] at hok
          split at hok
          · cases hok; exact hdisj
          · cases hv : is_valid dfr.url with
            | error e => simp only [hv] at hok; exact Except.noConfusion hok
            | ok valid =>
              simp only [hv] at hok
              split at hok
              · cases hok; exact hdisj
              · split at hok
                · cases hok; exact hdisj
                · refine tailDisjoint uj fetch (soup rr.content) (pyLower resp.url) url h
                    _ links st2 (tokenize (pyLower (soup rr.content).text)) hnored ?_ hok
                  split <;> exact inter_erase_empty (pageKey prs) hdisj

/-- The no-redirect witness response (a 404, handled at the status gate). -/
def c1wresp : Response := ⟨"http://www.ics.uci.edu/a", 404, none⟩

/-- Witness for C1 amended at a concrete no-redirect call. -/
theorem c1_no_redirect_preserves_disjointness_witness :
    extract_next_links (soupOf 1) ujNone hashOne fetchTrue initState
      "http://www.ics.uci.edu/a" c1wresp = .ok ([], initState) ∧
    initState.visited_pages ∩ initState.pages_in_front = ∅ :=
  ⟨by decide,
   c1_no_redirect_preserves_disjointness (soupOf 1) ujNone hashOne fetchTrue initState
     "http://www.ics.uci.edu/a" c1wresp [] initState rfl (by decide) (by decide)⟩

/-- The pre-call state of the redirect counterexample: the original URL's
identity key sits in the frontier set, and the two sets are disjoint. -/
def c1state : ScraperState := { initState with pages_in_front := {"www.ics.uci.edu/old"} }

/-- The redirected response: the request was for `/old`, the final response URL
is `/page` (a 200 with a 250-token body). -/
def c1resp : Response := ⟨"http://www.ics.uci.edu/page", 200, some ⟨"c"⟩⟩

/-- The state after the redirect call: the old key is in both sets. -/
def c1after : ScraperState :=
  { visited_pages := {"www.ics.uci.edu/old", "www.ics.uci.edu/page"},
    num_redirect := 1,
    pages_in_front := {"www.ics.uci.edu/old"},
    longest_page := ("http://www.ics.uci.edu/page", 250),
    word_count := [("0", 250)],
    ics_subdomains := [("www.ics.uci.edu", 1)],
    all_fingerprints := [∅],
    robot_allowed := [] }

set_option maxRecDepth 100000 in
/-- C1 counterexample: a successful call that starts from disjoint sets ends
with `"www.ics.uci.edu/old"` in both `visited_pages` and `pages_in_front`: the
redirect branch adds the original URL's identity key to `visited_pages` but
never discards it from `pages_in_front`. -/
theorem c1_redirect_breaks_disjointness_counterexample :
    c1state.visited_pages ∩ c1state.pages_in_front = ∅ ∧
    extract_next_links (soupOf 250) ujNone hashOne fetchTrue c1state
      "http://www.ics.uci.edu/old" c1resp = .ok ([], c1after) ∧
    c1after.visited_pages ∩ c1after.pages_in_front ≠ ∅ ∧
    "www.ics.uci.edu/old" ∈ c1after.visited_pages ∧
    "www.ics.uci.edu/old" ∈ c1after.pages_in_front := by decide
